import Mathlib

/-!
# White-label gateway admin console: orchestration layer, shallow embedding

A shallow embedding of the client-side orchestration layer of a
payment-gateway administration console.  The JavaScript source is embedded
as pure Lean functions:

* asynchronous HTTP calls become oracles (`Request → Except HttpError α`),
  indexed by call order where a retry may observe a different backend state;
* each orchestration function additionally returns the ordered list of
  requests it issued (its trace), so ordering and fallback claims are
  statable;
* JavaScript truthiness of `x || d` on strings/env vars is `jsOr`
  (`undefined` and the empty string are falsy);
* `String(x)` coercion of payment amounts is `jsString` over `JsVal`;
  a JavaScript number amount with an integral value in the safe-integer
  range (for instance the literal `100.00`, which denotes the same double
  as `100`) is embedded as `JsVal.jnum` of that integer, whose canonical
  JavaScript rendering is the plain decimal of the integer.

Sources embedded: `src/unnamed/part_000` (merchant API: `createMerchant`,
`getDashboard`), `src/frontend/src/api/client.js` (axios instance,
request interceptor, `createPayment`), `src/frontend/src/components/PaymentForm.jsx`
(next-action URL normalization), `src/unnamed/part_001`
(`Providers` component: `handleProviderChange`).
-/

namespace Gateway

/-- Vite environment variables read by the orchestration layer; `none`
models an unset variable. -/
structure Env where
  VITE_API_BASE_URL : Option String
  VITE_MERCHANT_SERVICE_URL : Option String
  VITE_PAYMENT_SERVICE_URL : Option String
deriving DecidableEq, Repr

/-- JavaScript `v || d` on an optional string: `undefined` (`none`) and the
empty string are falsy and select the default. -/
def jsOr (v : Option String) (d : String) : String :=
  match v with
  | none => d
  | some s => if s = "" then d else s

/-- JavaScript `s || d` on a string already in hand. -/
def jsOrS (s d : String) : String :=
  if s = "" then d else s

/-- `import.meta.env.VITE_API_BASE_URL || 'http://localhost:8000'`
(the gateway base address, `client.js` line 4 and `createPayment`). -/
def gatewayUrl (env : Env) : String :=
  jsOr env.VITE_API_BASE_URL "http://localhost:8000"

/-- `import.meta.env.VITE_MERCHANT_SERVICE_URL || 'http://localhost:8001'`. -/
def merchantServiceUrl (env : Env) : String :=
  jsOr env.VITE_MERCHANT_SERVICE_URL "http://localhost:8001"

/-- `import.meta.env.VITE_PAYMENT_SERVICE_URL || 'http://localhost:8002'`. -/
def paymentServiceUrl (env : Env) : String :=
  jsOr env.VITE_PAYMENT_SERVICE_URL "http://localhost:8002"

/-- An axios-style failure: `error.response?.status`, `error.code`
(for instance `'ECONNREFUSED'`), and `error.response?.data?.detail`. -/
structure HttpError where
  status : Option Nat
  code : Option String
  detail : Option String
deriving DecidableEq, Repr

/-- A JavaScript value in a payment amount position: a string or a number.
Numbers are restricted to integral doubles in the safe-integer range
(embedded by their exact integer value); the literal `100.00` denotes the
same double as `100` and is embedded as `jnum 100`. -/
inductive JsVal where
  | jstr (s : String)
  | jnum (n : Int)
deriving DecidableEq, Repr

/-- JavaScript `String(x)`: the identity on strings; on an integral double
in the safe-integer range, the canonical decimal rendering of its integer
value. -/
def jsString : JsVal → String
  | .jstr s => s
  | .jnum n => toString n

/-- Merchant creation payload: `{ name, ...optional branding fields }`.
Branding fields are carried as opaque key/value pairs. -/
structure MerchantData where
  name : String
  branding : List (String × String)
deriving DecidableEq, Repr

/-- Argument of `createMerchant`: either a bare display name (a string)
or a full profile object, distinguished in the source by `typeof`. -/
inductive MerchantInput where
  | byName (s : String)
  | byProfile (d : MerchantData)
deriving DecidableEq, Repr

/-- `typeof nameOrData === 'string' ? { name: nameOrData } : nameOrData`. -/
def normalizeMerchantInput : MerchantInput → MerchantData
  | .byName s => { name := s, branding := [] }
  | .byProfile d => d

/-- Body of the `POST /v1/payments` call built by `createPayment`. -/
structure PaymentBody where
  merchant_id : String
  amount : String
  currency : String
  description : String
  payment_method : String
deriving DecidableEq, Repr

/-- A request body: the merchant-creation payload or the payment payload. -/
inductive Body where
  | merchant (d : MerchantData)
  | payment (b : PaymentBody)
deriving DecidableEq, Repr

/-- One outbound HTTP request as configured at the call site: method,
relative path, effective base address, the per-call `apiKey` option
(if any), and the JSON body (if any). -/
structure Request where
  method : String
  path : String
  baseURL : String
  apiKey : Option String
  body : Option Body
deriving DecidableEq, Repr

/-- A merchant object returned by the backend: its `id` plus the remaining
fields, carried opaquely. -/
structure Merchant where
  id : String
  fields : List (String × String)
deriving DecidableEq, Repr

/-- A payment record returned by the backend, carried opaquely (the
orchestration layer never inspects it). -/
structure Payment where
  fields : List (String × String)
deriving DecidableEq, Repr

/-- The composed result of `getDashboard`:
`{ merchant, payments, dashboardHtml }`. -/
structure DashboardView where
  merchant : Merchant
  payments : List Payment
  dashboardHtml : String
deriving DecidableEq, Repr

/-- `apiClient.post('/api/v1/merchants', merchantData, { baseURL: merchantServiceUrl })`. -/
def merchantsCreateRequest (env : Env) (d : MerchantData) : Request :=
  { method := "POST", path := "/api/v1/merchants",
    baseURL := merchantServiceUrl env, apiKey := none,
    body := some (.merchant d) }

/-- `apiClient.get('/api/v1/dashboard', { apiKey, baseURL: merchantServiceUrl })`. -/
def dashboardRequest (env : Env) (apiKey : String) : Request :=
  { method := "GET", path := "/api/v1/dashboard",
    baseURL := merchantServiceUrl env, apiKey := some apiKey, body := none }

/-- `apiClient.get('/api/v1/merchants/me', { apiKey, baseURL: merchantServiceUrl })`. -/
def merchantsMeRequest (env : Env) (apiKey : String) : Request :=
  { method := "GET", path := "/api/v1/merchants/me",
    baseURL := merchantServiceUrl env, apiKey := some apiKey, body := none }

/-- `apiClient.get('/api/v1/payments/by-merchant/' + merchantId, { baseURL: paymentServiceUrl })`. -/
def paymentsByMerchantRequest (env : Env) (merchantId : String) : Request :=
  { method := "GET", path := "/api/v1/payments/by-merchant/" ++ merchantId,
    baseURL := paymentServiceUrl env, apiKey := none, body := none }

/-- `apiClient.post('/v1/payments', body, { apiKey, baseURL: gatewayUrl })`. -/
def paymentsCreateRequest (env : Env) (apiKey : String) (b : PaymentBody) : Request :=
  { method := "POST", path := "/v1/payments",
    baseURL := gatewayUrl env, apiKey := some apiKey, body := some (.payment b) }

/-- The fallback test of `createMerchant`:
`error.response?.status === 404 || error.code === 'ECONNREFUSED'`. -/
def isRoutingError (e : HttpError) : Bool :=
  e.status == some 404 || e.code == some "ECONNREFUSED"

/-- Embedding of `createMerchant` (`src/unnamed/part_000`, lines 78-106).
The oracle `post` maps the index of the outbound call (0 for the first
attempt, 1 for the retry) and the request to the backend's answer; the
second component of the result is the ordered trace of issued requests.

Faithful to the source: both the first attempt and the fallback compute
`merchantServiceUrl` from `VITE_MERCHANT_SERVICE_URL || 'http://localhost:8001'`
and pass it as `baseURL`; the retry happens exactly when the first attempt
failed with status 404 or code `ECONNREFUSED`, and any failure of the
retry propagates as is. -/
def createMerchant (env : Env) (post : Nat → Request → Except HttpError Merchant)
    (nameOrData : MerchantInput) : Except HttpError Merchant × List Request :=
  let merchantData := normalizeMerchantInput nameOrData
  let req := merchantsCreateRequest env merchantData
  match post 0 req with
  | .ok m => (.ok m, [req])
  | .error e =>
    if isRoutingError e then
      let merchantData2 := normalizeMerchantInput nameOrData
      let req2 := merchantsCreateRequest env merchantData2
      (post 1 req2, [req, req2])
    else
      (.error e, [req])

/-- Embedding of `getDashboard` (`src/unnamed/part_000`, lines 113-146).
Three typed oracles answer the three backend endpoints; the trace records
the requests in issue order, and a step that fails aborts the remaining
steps (its error is rethrown unchanged by the `catch`). -/
def getDashboard (env : Env)
    (getHtml : Request → Except HttpError String)
    (getMerchant : Request → Except HttpError Merchant)
    (getPayments : Request → Except HttpError (List Payment))
    (apiKey : String) : Except HttpError DashboardView × List Request :=
  let r1 := dashboardRequest env apiKey
  match getHtml r1 with
  | .error e => (.error e, [r1])
  | .ok dashboardHtml =>
    let r2 := merchantsMeRequest env apiKey
    match getMerchant r2 with
    | .error e => (.error e, [r1, r2])
    | .ok merchantInfo =>
      let merchantId := merchantInfo.id
      let r3 := paymentsByMerchantRequest env merchantId
      match getPayments r3 with
      | .error e => (.error e, [r1, r2, r3])
      | .ok payments =>
        (.ok { merchant := merchantInfo, payments := payments,
               dashboardHtml := dashboardHtml }, [r1, r2, r3])

/-- Caller-supplied payment data for `createPayment`:
`{ amount, currency, description, payment_method }`, the last possibly
absent (`none` models `undefined`). -/
structure PaymentData where
  amount : JsVal
  currency : String
  description : String
  payment_method : Option String
deriving DecidableEq, Repr

/-- Embedding of `createPayment` (`src/frontend/src/api/client.js`,
lines 42-72).  Step 1 resolves the merchant via
`GET /api/v1/merchants/me` against the merchant service; step 2 posts
`{ merchant_id, amount: String(amount), currency, description,
payment_method: payment_method || 'card' }` to `/v1/payments` against the
gateway base address. -/
def createPayment (env : Env)
    (getMerchant : Request → Except HttpError Merchant)
    (postPayment : Request → Except HttpError Payment)
    (apiKey : String) (paymentData : PaymentData) :
    Except HttpError Payment × List Request :=
  let r1 := merchantsMeRequest env apiKey
  match getMerchant r1 with
  | .error e => (.error e, [r1])
  | .ok merchant =>
    let body : PaymentBody :=
      { merchant_id := merchant.id,
        amount := jsString paymentData.amount,
        currency := paymentData.currency,
        description := paymentData.description,
        payment_method := jsOr paymentData.payment_method "card" }
    let r2 := paymentsCreateRequest env apiKey body
    match postPayment r2 with
    | .error e => (.error e, [r1, r2])
    | .ok p => (.ok p, [r1, r2])

/-- The payment bodies occurring in a request trace, in order. -/
def paymentBodies (l : List Request) : List PaymentBody :=
  l.filterMap fun r =>
    match r.body with
    | some (.payment b) => some b
    | _ => none

/-- JavaScript `s.startsWith(pre)`: the characters of `pre` are a prefix
of the characters of `s`. -/
def jsStartsWith (s pre : String) : Bool :=
  pre.data.isPrefixOf s.data

/-- Next-action URL normalization (`PaymentForm.jsx`, lines 34-36 and
200-202): `url.startsWith('http') ? url : gatewayUrl + url`. -/
def normalizeNextActionUrl (gatewayBase url : String) : String :=
  if jsStartsWith url "http" then url else gatewayBase ++ url

/-- The spec's wording of "already starts with a scheme (`http`/`https`)":
the text begins with `http://` or `https://`.  Stated independently of the
source, for comparison with the source's literal-prefix test. -/
def startsWithHttpScheme (url : String) : Bool :=
  jsStartsWith url "http://" || jsStartsWith url "https://"

/-- An axios call configuration as seen by the request interceptor: the
per-call `apiKey` option, the headers object (an ordered key/value list),
and the remaining configuration entries, carried opaquely. -/
structure AxiosConfig where
  apiKey : Option String
  headers : List (String × String)
  rest : List (String × String)
deriving DecidableEq, Repr

/-- JavaScript object assignment `obj[k] = v` on a key/value list:
replace the first binding of `k` in place, else append. -/
def setHeader : List (String × String) → String → String → List (String × String)
  | [], k, v => [(k, v)]
  | p :: t, k, v => if p.1 = k then (k, v) :: t else p :: setHeader t k v

/-- Lookup of a header key (first binding wins). -/
def lookupHeader : List (String × String) → String → Option String
  | [], _ => none
  | p :: t, k => if p.1 = k then some p.2 else lookupHeader t k

/-- Embedding of the request interceptor (`client.js`, lines 15-27):
`if (config.apiKey) { config.headers['X-API-Key'] = config.apiKey;
delete config.apiKey }`.  JavaScript truthiness: an absent or empty
`apiKey` leaves the configuration untouched. -/
def requestInterceptor (config : AxiosConfig) : AxiosConfig :=
  match config.apiKey with
  | none => config
  | some k =>
    if k = "" then config
    else
      { config with headers := setHeader config.headers "X-API-Key" k,
                    apiKey := none }

/-- Component state of the `Providers` page (`src/unnamed/part_001`)
after a handler run: the displayed current provider key and the
error/success/loading flags. -/
structure ProvidersState where
  currentProvider : String
  availableProviders : List (String × String)
  loading : Bool
  error : Option String
  success : Bool
deriving DecidableEq, Repr

/-- Outcome of the `PUT /api/v1/provider` fetch in `handleProviderChange`:
either `response.ok` with the parsed `current_provider`, or a non-ok
response whose parsed body carries an optional `detail` string. -/
inductive SwitchOutcome where
  | ok (current_provider : String)
  | rejected (detail : Option String)
deriving DecidableEq, Repr

/-- Embedding of `handleProviderChange` (`src/unnamed/part_001`,
lines 31-63).  `respond` maps the provider key sent in the request body to
the backend's outcome.  The returned state is the component state right
after the handler finishes (before the delayed `setTimeout` reset of the
success flag).  On rejection the thrown message is
`errorData.detail || 'Не удалось изменить провайдер'`, and the catch
stores `err.message || 'Ошибка при изменении провайдера'`;
`setCurrentProvider` is reached only on a successful response. -/
def handleProviderChange (st : ProvidersState) (providerName : String)
    (respond : String → SwitchOutcome) : ProvidersState :=
  let st1 : ProvidersState := { st with loading := true, error := none, success := false }
  match respond providerName with
  | .ok cur =>
      { st1 with currentProvider := cur, success := true, loading := false }
  | .rejected detail =>
      let msg := jsOr detail "Не удалось изменить провайдер"
      { st1 with error := some (jsOrS msg "Ошибка при изменении провайдера"),
                 loading := false }

/-! Concrete inputs used to evaluate the embedded operations. -/

/-- The local-development environment: no Vite variable set. -/
def envDefault : Env :=
  { VITE_API_BASE_URL := none, VITE_MERCHANT_SERVICE_URL := none,
    VITE_PAYMENT_SERVICE_URL := none }

/-- A connection-refused axios failure. -/
def connRefusedError : HttpError :=
  { status := none, code := some "ECONNREFUSED", detail := none }

/-- A plain HTTP 500 failure with a detail string. -/
def serverError : HttpError :=
  { status := some 500, code := none, detail := some "internal error" }

/-- A merchant object as the backend would return it. -/
def demoMerchant : Merchant :=
  { id := "m-1", fields := [("name", "Demo Shop")] }

/-- A payment record as the backend would return it. -/
def demoPayment : Payment :=
  { fields := [("payment_id", "p-1")] }

/-- A backend whose first answer is connection-refused and whose second
answer succeeds (the primary route down, the retry reaching the service). -/
def primaryDownPost : Nat → Request → Except HttpError Merchant :=
  fun i _ => if i = 0 then .error connRefusedError else .ok demoMerchant

/-- Payment data with an omitted `payment_method`. -/
def demoPaymentData : PaymentData :=
  { amount := .jstr "100.50", currency := "RUB", description := "Order #1",
    payment_method := none }

/-- Payment data whose `payment_method` is present but the empty string. -/
def emptyMethodPaymentData : PaymentData :=
  { amount := .jstr "5", currency := "RUB", description := "d",
    payment_method := some "" }

/-- A `Providers` page state with an active provider and no pending error. -/
def demoProvidersState : ProvidersState :=
  { currentProvider := "mock_success",
    availableProviders := [("mock_success", "always succeeds")],
    loading := false, error := none, success := false }

/-- A call configuration carrying a credential in its `apiKey` field. -/
def demoConfig : AxiosConfig :=
  { apiKey := some "sk-123",
    headers := [("Content-Type", "application/json")],
    rest := [("url", "/api/v1/dashboard")] }

/-! Helper lemmas. -/

/-- A text that starts with `http://` or `https://` in particular starts
with the four literal characters `http`. -/
theorem jsStartsWith_http_of_scheme (u : String)
    (h : startsWithHttpScheme u = true) : jsStartsWith u "http" = true := by
  unfold startsWithHttpScheme at h
  unfold jsStartsWith at h ⊢
  rcases Bool.or_eq_true _ _ |>.mp h with h' | h' <;>
  · rw [ List.isPrefixOf_iff_prefix] at h' ⊢
    exact List.IsPrefix.trans (by decide) h'

/-- Writing a key into a JavaScript-object key/value list makes that key
read back the written value. -/
theorem lookupHeader_setHeader (l : List (String × String)) (k v : String) :
    lookupHeader (setHeader l k v) k = some v := by
  induction l with
  | nil => simp [setHeader, lookupHeader]
  | cons p t ih =>
    by_cases h : p.1 = k
    · simp [setHeader, h, lookupHeader]
    · simp [setHeader, h, lookupHeader, ih]

/-! ## Claim theorems -/

/-- **C1.** The claim says the first creation attempt of `createMerchant`
goes to the primary (gateway) base address, a separately configurable
address distinct from the secondary (direct-to-service) address of the
fallback.  Evaluating the embedded code on the profile `"Demo Shop"` in
the default environment, against a backend whose first answer is
connection-refused: both issued requests carry the merchant-service base
address `http://localhost:8001`, which is the fallback's address and is
not the gateway address `http://localhost:8000` — the first attempt never
targets the gateway, contradicting the source's own comment "try through
the gateway first, then through the merchant-service directly". -/
theorem createMerchant_first_attempt_not_gateway :
    (createMerchant envDefault primaryDownPost (.byName "Demo Shop")).2.map
        Request.baseURL = ["http://localhost:8001", "http://localhost:8001"] ∧
    merchantServiceUrl envDefault = "http://localhost:8001" ∧
    gatewayUrl envDefault = "http://localhost:8000" ∧
    ("http://localhost:8001" : String) ≠ "http://localhost:8000" := by
  refine ⟨by decide, by decide, by decide, by decide⟩

/-- **C2.** If any of `getDashboard`'s three steps fails, the whole
operation fails with that step's error propagated unchanged (the result is
an `Except.error`, so no partial dashboard is returned); in particular,
when the payment-listing step fails after the dashboard-payload and
merchant-resolution steps succeeded, the caller receives the
payment-listing error. -/
theorem getDashboard_aborts_on_step_failure
    (env : Env) (getHtml : Request → Except HttpError String)
    (getMerchant : Request → Except HttpError Merchant)
    (getPayments : Request → Except HttpError (List Payment))
    (apiKey : String) :
    (∀ e, getHtml (dashboardRequest env apiKey) = .error e →
      (getDashboard env getHtml getMerchant getPayments apiKey).1 = .error e) ∧
    (∀ h e, getHtml (dashboardRequest env apiKey) = .ok h →
      getMerchant (merchantsMeRequest env apiKey) = .error e →
      (getDashboard env getHtml getMerchant getPayments apiKey).1 = .error e) ∧
    (∀ h m e, getHtml (dashboardRequest env apiKey) = .ok h →
      getMerchant (merchantsMeRequest env apiKey) = .ok m →
      getPayments (paymentsByMerchantRequest env m.id) = .error e →
      (getDashboard env getHtml getMerchant getPayments apiKey).1 = .error e) := by
  refine ⟨?_, ?_, ?_⟩
  · intro e h1
    simp [getDashboard, h1]
  · intro h e h1 h2
    simp [getDashboard, h1, h2]
  · intro h m e h1 h2 h3
    simp [getDashboard, h1, h2, h3]

/-- Witness for C2: with the dashboard-payload and merchant steps
succeeding and the payment listing failing with a 500, `getDashboard`
returns exactly that 500 error. -/
theorem getDashboard_aborts_on_step_failure_witness :
    (getDashboard envDefault (fun _ => .ok "HTML") (fun _ => .ok demoMerchant)
      (fun _ => .error serverError) "key").1 = .error serverError :=
  (getDashboard_aborts_on_step_failure envDefault _ _ _ "key").2.2
    "HTML" demoMerchant serverError rfl rfl rfl

/-- **C3.** On success, `getDashboard` has issued exactly three requests
in strict order — the rendered-dashboard fetch for the credential, then
the merchant self-resolution with the same credential, then the payment
listing keyed by the merchant id obtained from the second call — and the
composed view holds exactly that merchant, that payment list, and that
dashboard payload. -/
theorem getDashboard_three_ordered_calls
    (env : Env) (getHtml : Request → Except HttpError String)
    (getMerchant : Request → Except HttpError Merchant)
    (getPayments : Request → Except HttpError (List Payment))
    (apiKey : String) (v : DashboardView) (tr : List Request)
    (hv : getDashboard env getHtml getMerchant getPayments apiKey = (.ok v, tr)) :
    getHtml (dashboardRequest env apiKey) = .ok v.dashboardHtml ∧
    getMerchant (merchantsMeRequest env apiKey) = .ok v.merchant ∧
    getPayments (paymentsByMerchantRequest env v.merchant.id) = .ok v.payments ∧
    tr = [dashboardRequest env apiKey, merchantsMeRequest env apiKey,
      paymentsByMerchantRequest env v.merchant.id] := by
  cases h1 : getHtml (dashboardRequest env apiKey) with
  | error e => simp [getDashboard, h1] at hv
  | ok html =>
    cases h2 : getMerchant (merchantsMeRequest env apiKey) with
    | error e => simp [getDashboard, h1, h2] at hv
    | ok mi =>
      cases h3 : getPayments (paymentsByMerchantRequest env mi.id) with
      | error e => simp [getDashboard, h1, h2, h3] at hv
      | ok ps =>
        simp only [getDashboard, h1, h2, h3, Prod.mk.injEq, Except.ok.injEq] at hv
        obtain ⟨he, ht⟩ := hv
        subst he
        subst ht
        exact ⟨rfl, rfl, h3, rfl⟩

/-- Witness for C3: a fully successful run issues exactly the three
requests in order. -/
theorem getDashboard_three_ordered_calls_witness :
    (getDashboard envDefault (fun _ => .ok "HTML") (fun _ => .ok demoMerchant)
        (fun _ => .ok [demoPayment]) "key").2 =
      [dashboardRequest envDefault "key", merchantsMeRequest envDefault "key",
       paymentsByMerchantRequest envDefault demoMerchant.id] := by
  have h := getDashboard_three_ordered_calls envDefault (fun _ => .ok "HTML")
    (fun _ => .ok demoMerchant) (fun _ => .ok [demoPayment]) "key"
    { merchant := demoMerchant, payments := [demoPayment], dashboardHtml := "HTML" }
    ((getDashboard envDefault (fun _ => .ok "HTML") (fun _ => .ok demoMerchant)
        (fun _ => .ok [demoPayment]) "key").2) (by rfl)
  exact h.2.2.2

/-- **C4.** `createMerchant` retries the identical creation call exactly
once, and only when the first attempt fails with HTTP status 404 or a
connection-refused code; any other failure of the first attempt propagates
unchanged with no second request; at most two requests are issued, and a
successful first attempt issues exactly one. -/
theorem createMerchant_retry_policy
    (env : Env) (post : Nat → Request → Except HttpError Merchant)
    (input : MerchantInput) :
    ((createMerchant env post input).2.length ≤ 2) ∧
    (∀ m, post 0 (merchantsCreateRequest env (normalizeMerchantInput input)) = .ok m →
      createMerchant env post input =
        (.ok m, [merchantsCreateRequest env (normalizeMerchantInput input)])) ∧
    (∀ e, post 0 (merchantsCreateRequest env (normalizeMerchantInput input)) = .error e →
      isRoutingError e = false →
      createMerchant env post input =
        (.error e, [merchantsCreateRequest env (normalizeMerchantInput input)])) ∧
    (∀ e, post 0 (merchantsCreateRequest env (normalizeMerchantInput input)) = .error e →
      isRoutingError e = true →
      createMerchant env post input =
        (post 1 (merchantsCreateRequest env (normalizeMerchantInput input)),
         [merchantsCreateRequest env (normalizeMerchantInput input),
          merchantsCreateRequest env (normalizeMerchantInput input)])) := by
  refine ⟨?_, ?_, ?_, ?_⟩
  · unfold createMerchant
    cases h : post 0 (merchantsCreateRequest env (normalizeMerchantInput input)) with
    | ok m => simp [h]
    | error e =>
      by_cases hr : isRoutingError e = true <;> simp [h, hr]
  · intro m hm
    simp [createMerchant, hm]
  · intro e he hr
    simp [createMerchant, he, hr]
  · intro e he hr
    simp [createMerchant, he, hr]

/-- Witness for C4: against a backend refusing the first connection and
accepting the retry, `createMerchant` issues the identical request twice
and returns the retry's merchant. -/
theorem createMerchant_retry_policy_witness :
    createMerchant envDefault primaryDownPost (.byName "Demo Shop") =
      (.ok demoMerchant,
       [merchantsCreateRequest envDefault (normalizeMerchantInput (.byName "Demo Shop")),
        merchantsCreateRequest envDefault (normalizeMerchantInput (.byName "Demo Shop"))]) := by
  have h := (createMerchant_retry_policy envDefault primaryDownPost
      (.byName "Demo Shop")).2.2.2 connRefusedError rfl (by decide)
  rw [h]
  rfl

/-- **C5 (counterexample).** The claim as stated — a URL that does not
start with an http/https scheme is prefixed with the gateway base — fails
on the code: `"httpfoo"` carries no http/https scheme, yet the code
returns it unchanged instead of `"http://localhost:8000httpfoo"`. -/
theorem normalizeUrl_scheme_wording_counterexample :
    startsWithHttpScheme "httpfoo" = false ∧
    normalizeNextActionUrl "http://localhost:8000" "httpfoo" = "httpfoo" ∧
    ("httpfoo" : String) ≠ "http://localhost:8000" ++ "httpfoo" := by
  exact ⟨by decide, by decide, by decide⟩

/-- **C5 (amended).** The surfaced URL equals `u` when `u` begins with the
literal character prefix `http` (true in particular of every URL starting
with an `http://` or `https://` scheme), and equals the gateway base
concatenated with `u` otherwise; the relative URL `/mock-3ds?token=abc`
with base `http://localhost:8000` normalizes to
`http://localhost:8000/mock-3ds?token=abc`, and the absolute URL
`https://ext.example/x` is returned unchanged. -/
theorem normalizeUrl_prefix_rule (g u : String) :
    (jsStartsWith u "http" = true → normalizeNextActionUrl g u = u) ∧
    (startsWithHttpScheme u = true → normalizeNextActionUrl g u = u) ∧
    (jsStartsWith u "http" = false → normalizeNextActionUrl g u = g ++ u) ∧
    normalizeNextActionUrl "http://localhost:8000" "/mock-3ds?token=abc" =
      "http://localhost:8000/mock-3ds?token=abc" ∧
    normalizeNextActionUrl g "https://ext.example/x" = "https://ext.example/x" := by
  refine ⟨?_, ?_, ?_, by decide, ?_⟩
  · intro h
    simp [normalizeNextActionUrl, h]
  · intro h
    simp [normalizeNextActionUrl, jsStartsWith_http_of_scheme u h]
  · intro h
    simp [normalizeNextActionUrl, h]
  · have : jsStartsWith "https://ext.example/x" "http" = true := by decide
    simp [normalizeNextActionUrl, this]

/-- Witness for C5: the absolute URL of the spec's example is returned
unchanged (its scheme test discharged concretely). -/
theorem normalizeUrl_prefix_rule_witness :
    normalizeNextActionUrl "http://localhost:8000" "https://ext.example/x" =
      "https://ext.example/x" :=
  (normalizeUrl_prefix_rule "http://localhost:8000" "https://ext.example/x").1
    (by decide)

/-- **C9.** Normalization decides "absolute" purely by the literal string
prefix `http`: any text beginning with those four characters — including
the non-URL `"httpfoo"`, which carries no http/https scheme — is returned
unchanged, while every other string, even the valid non-http scheme
`"ftp://x"`, is prefixed with the gateway base. -/
theorem normalizeUrl_literal_prefix_decides (g u : String) :
    (jsStartsWith u "http" = true → normalizeNextActionUrl g u = u) ∧
    (jsStartsWith u "http" = false → normalizeNextActionUrl g u = g ++ u) ∧
    (jsStartsWith "httpfoo" "http" = true ∧ startsWithHttpScheme "httpfoo" = false ∧
      normalizeNextActionUrl g "httpfoo" = "httpfoo") ∧
    (jsStartsWith "ftp://x" "http" = false ∧
      normalizeNextActionUrl g "ftp://x" = g ++ "ftp://x") := by
  refine ⟨?_, ?_, ⟨by decide, by decide, ?_⟩, ⟨by decide, ?_⟩⟩
  · intro h
    simp [normalizeNextActionUrl, h]
  · intro h
    simp [normalizeNextActionUrl, h]
  · have : jsStartsWith "httpfoo" "http" = true := by decide
    simp [normalizeNextActionUrl, this]
  · have : jsStartsWith "ftp://x" "http" = false := by decide
    simp [normalizeNextActionUrl, this]

/-- Witness for C9: a relative path is prefixed with the gateway base. -/
theorem normalizeUrl_literal_prefix_decides_witness :
    normalizeNextActionUrl "http://localhost:8000" "/x" =
      "http://localhost:8000" ++ "/x" :=
  (normalizeUrl_literal_prefix_decides "http://localhost:8000" "/x").2.1 (by decide)

/-- **C6 (counterexample).** The claim as stated — the submitted
`payment_method` equals `request.payment_method`, with `card` used only
when the field is omitted — fails on the code: for a request whose
`payment_method` is present but the empty string, the code submits
`"card"`, not `""` (JavaScript `||` treats the empty string as absent). -/
theorem createPayment_empty_method_counterexample :
    paymentBodies (createPayment envDefault (fun _ => .ok demoMerchant)
        (fun _ => .ok demoPayment) "key" emptyMethodPaymentData).2 =
      [{ merchant_id := "m-1", amount := "5", currency := "RUB",
         description := "d", payment_method := "card" }] ∧
    emptyMethodPaymentData.payment_method = some "" ∧
    ("card" : String) ≠ "" := by
  exact ⟨by decide, by decide, by decide⟩

/-- **C6 (amended).** `createPayment` first resolves the merchant id by
calling the merchant service with the credential, and only then submits
to the gateway a payment body whose `merchant_id` is the resolved id,
whose `amount` is the string coercion of the request's amount, whose
`currency` and `description` pass through unchanged, and whose
`payment_method` is the request's method, defaulting to `card` when the
method is omitted or empty (falsy). -/
theorem createPayment_resolves_then_submits
    (env : Env) (getMerchant : Request → Except HttpError Merchant)
    (postPayment : Request → Except HttpError Payment)
    (apiKey : String) (pd : PaymentData) (m : Merchant)
    (hm : getMerchant (merchantsMeRequest env apiKey) = .ok m) :
    (createPayment env getMerchant postPayment apiKey pd).2 =
      [merchantsMeRequest env apiKey,
       paymentsCreateRequest env apiKey
         { merchant_id := m.id, amount := jsString pd.amount,
           currency := pd.currency, description := pd.description,
           payment_method := jsOr pd.payment_method "card" }] := by
  cases h2 : postPayment (paymentsCreateRequest env apiKey
      { merchant_id := m.id, amount := jsString pd.amount,
        currency := pd.currency, description := pd.description,
        payment_method := jsOr pd.payment_method "card" }) with
  | error e => simp [createPayment, hm, h2]
  | ok p => simp [createPayment, hm, h2]

/-- Witness for C6: a concrete request with an omitted method resolves the
merchant first and then submits the composed body with method `card` to
the gateway path. -/
theorem createPayment_resolves_then_submits_witness :
    (createPayment envDefault (fun _ => .ok demoMerchant)
        (fun _ => .ok demoPayment) "key" demoPaymentData).2 =
      [merchantsMeRequest envDefault "key",
       paymentsCreateRequest envDefault "key"
         { merchant_id := "m-1", amount := "100.50", currency := "RUB",
           description := "Order #1", payment_method := "card" }] := by
  have h := createPayment_resolves_then_submits envDefault
    (fun _ => .ok demoMerchant) (fun _ => .ok demoPayment) "key"
    demoPaymentData demoMerchant rfl
  rw [h]
  rfl

/-- **C10.** The submitted amount of `createPayment` is `String(amount)`:
the identity on string amounts, and for a number amount the canonical
decimal rendering of its value — the literal `100.00`, being the integral
double `100`, is transmitted as `"100"` with the trailing fractional
zeros dropped. -/
theorem createPayment_amount_string_coercion
    (env : Env) (getMerchant : Request → Except HttpError Merchant)
    (postPayment : Request → Except HttpError Payment)
    (apiKey : String) (pd : PaymentData) (m : Merchant)
    (hm : getMerchant (merchantsMeRequest env apiKey) = .ok m) :
    (paymentBodies (createPayment env getMerchant postPayment apiKey pd).2).map
        PaymentBody.amount = [jsString pd.amount] ∧
    (∀ s, jsString (.jstr s) = s) ∧
    jsString (.jnum 100) = "100" := by
  refine ⟨?_, fun s => rfl, by decide⟩
  have htr : (createPayment env getMerchant postPayment apiKey pd).2 =
      [merchantsMeRequest env apiKey,
       paymentsCreateRequest env apiKey
         { merchant_id := m.id, amount := jsString pd.amount,
           currency := pd.currency, description := pd.description,
           payment_method := jsOr pd.payment_method "card" }] := by
    cases h2 : postPayment (paymentsCreateRequest env apiKey
        { merchant_id := m.id, amount := jsString pd.amount,
          currency := pd.currency, description := pd.description,
          payment_method := jsOr pd.payment_method "card" }) with
    | error e => simp [createPayment, hm, h2]
    | ok p => simp [createPayment, hm, h2]
  rw [htr]
  simp [paymentBodies, merchantsMeRequest, paymentsCreateRequest]

/-- Witness for C10: an amount given as the number `100.00` (the integral
double `100`) is transmitted as the string `"100"`. -/
theorem createPayment_amount_string_coercion_witness :
    (paymentBodies (createPayment envDefault (fun _ => .ok demoMerchant)
        (fun _ => .ok demoPayment) "key"
        { amount := .jnum 100, currency := "RUB", description := "Order #1",
          payment_method := none }).2).map PaymentBody.amount = ["100"] := by
  have h := (createPayment_amount_string_coercion envDefault
    (fun _ => .ok demoMerchant) (fun _ => .ok demoPayment) "key"
    { amount := .jnum 100, currency := "RUB", description := "Order #1",
      payment_method := none } demoMerchant rfl).1
  rw [h]
  rfl

/-- **C7.** When the provider-switch request is rejected by the backend,
the handler stores the server-supplied detail text as the error and leaves
the displayed current provider key unchanged; the current-provider state
is updated only on a successful response. -/
theorem handleProviderChange_state_update
    (st : ProvidersState) (key : String) (respond : String → SwitchOutcome) :
    (∀ d, respond key = .rejected (some d) → d ≠ "" →
      (handleProviderChange st key respond).currentProvider = st.currentProvider ∧
      (handleProviderChange st key respond).error = some d) ∧
    (∀ cur, respond key = .ok cur →
      (handleProviderChange st key respond).currentProvider = cur ∧
      (handleProviderChange st key respond).error = none) := by
  constructor
  · intro d h hd
    simp [handleProviderChange, h, jsOr, jsOrS, hd]
  · intro cur h
    simp [handleProviderChange, h]

/-- Witness for C7: a rejected switch with detail `Provider not found`
leaves `mock_success` active and surfaces exactly that detail text. -/
theorem handleProviderChange_state_update_witness :
    (handleProviderChange demoProvidersState "mock_failed"
        (fun _ => .rejected (some "Provider not found"))).currentProvider =
      demoProvidersState.currentProvider ∧
    (handleProviderChange demoProvidersState "mock_failed"
        (fun _ => .rejected (some "Provider not found"))).error =
      some "Provider not found" :=
  (handleProviderChange_state_update demoProvidersState "mock_failed"
    (fun _ => .rejected (some "Provider not found"))).1
    "Provider not found" rfl (by decide)

/-- **C8.** A call configuration carrying a (non-empty) credential in its
`apiKey` field leaves the interceptor with the `X-API-Key` header set to
that credential, the `apiKey` field deleted, and the remaining
configuration entries untouched; a configuration without an `apiKey`
passes through unchanged. -/
theorem requestInterceptor_moves_credential (c : AxiosConfig) :
    (∀ k, c.apiKey = some k → k ≠ "" →
      (requestInterceptor c).apiKey = none ∧
      lookupHeader (requestInterceptor c).headers "X-API-Key" = some k ∧
      (requestInterceptor c).rest = c.rest) ∧
    (c.apiKey = none → requestInterceptor c = c) := by
  constructor
  · intro k hk hne
    simp [requestInterceptor, hk, hne, lookupHeader_setHeader]
  · intro h
    simp [requestInterceptor, h]

/-- Witness for C8: a configuration carrying `sk-123` comes out with the
header set, the `apiKey` field gone, and the rest untouched. -/
theorem requestInterceptor_moves_credential_witness :
    (requestInterceptor demoConfig).apiKey = none ∧
    lookupHeader (requestInterceptor demoConfig).headers "X-API-Key" =
      some "sk-123" ∧
    (requestInterceptor demoConfig).rest = demoConfig.rest :=
  (requestInterceptor_moves_credential demoConfig).1 "sk-123" rfl (by decide)

end Gateway
